import Mathlib

/-!
Verification of the QuickFilings backend (`src/main.py`) against its
natural-language specification.

The development shallowly embeds the decision logic of the backend:

* `parseDate` models `datetime.strptime(s, "%Y-%m-%d")` together with the
  calendar validation performed by `datetime`.
* `toOrdinal` models `datetime.date.toordinal` (proleptic Gregorian).
* `Now`/`nowTicks` model `datetime.now()`: a calendar date plus a sub-day
  time expressed in microseconds, so that `datetime` comparisons against
  `datetime.now() - timedelta(days = k)` are exact.
* `classifyRow` models the body of the per-row loop of `get_sec_filings`
  (src/main.py lines 331-400), and `get_sec_filings` the surrounding
  fetch/branch structure (lines 314-405).
* `dedupRelay`, `sortFilesByDateDesc` and `aggregate` model the
  merge/deduplicate/relay-rewrite/sort block of `search_company`
  (lines 680-706).
* `search_company` models the endpoint body (lines 650-711), including the
  reference to the undefined name `company_name` at line 674, which in
  Python raises a `NameError`; it is embedded as the error value
  `SearchError.nameError "company_name"`.
-/

/-- A calendar date, as produced by a successful `%Y-%m-%d` parse. -/
structure Date where
  year : Nat
  month : Nat
  day : Nat
deriving DecidableEq, Repr

/-- Leap year test of the proleptic Gregorian calendar, as used by Python
`datetime`. -/
def isLeap (y : Nat) : Bool :=
  y % 4 == 0 && (y % 100 != 0 || y % 400 == 0)

/-- Number of days in a month, as validated by `datetime.date`. -/
def daysInMonth (y m : Nat) : Nat :=
  if m = 2 then (if isLeap y then 29 else 28)
  else if m = 4 ∨ m = 6 ∨ m = 9 ∨ m = 11 then 30
  else 31

/-- Days in year `y` strictly before month `m` (1-based). -/
def daysBeforeMonth (y m : Nat) : Nat :=
  [0, 0, 31, 59, 90, 120, 151, 181, 212, 243, 273, 304, 334].getD m 0
    + (if 2 < m ∧ isLeap y then 1 else 0)

/-- Proleptic-Gregorian day number of a date, exactly
`datetime.date(y, m, d).toordinal()` (day 1 is 0001-01-01). -/
def toOrdinal (d : Date) : Nat :=
  365 * (d.year - 1) + (d.year - 1) / 4 - (d.year - 1) / 100 + (d.year - 1) / 400
    + daysBeforeMonth d.year d.month + d.day

/-- Split a character list at every `-`, keeping empty components, exactly
like Python would see the `-` separators of `%Y-%m-%d`. -/
def splitDashes : List Char → List Char → List (List Char)
  | [], cur => [cur.reverse]
  | c :: rest, cur =>
    if c = '-' then cur.reverse :: splitDashes rest []
    else splitDashes rest (c :: cur)

/-- Numeric value of a list of decimal digit characters. -/
def digitsToNat (cs : List Char) : Nat :=
  cs.foldl (fun n c => n * 10 + (c.toNat - 48)) 0

/-- Model of `datetime.strptime(s, "%Y-%m-%d")`: the year is exactly four
digits, month and day are one or two digits in range, the whole string is
consumed, and the resulting date must be a valid calendar date with
year at least 1 (the `datetime` constructor rejects year 0 and
out-of-range days such as `2024-02-31`). -/
def parseDate (s : String) : Option Date :=
  match splitDashes s.data [] with
  | [ys, ms, ds] =>
    if ys.length = 4 ∧ ys.all Char.isDigit
        ∧ 1 ≤ ms.length ∧ ms.length ≤ 2 ∧ ms.all Char.isDigit
        ∧ 1 ≤ ds.length ∧ ds.length ≤ 2 ∧ ds.all Char.isDigit then
      let y := digitsToNat ys
      let m := digitsToNat ms
      let d := digitsToNat ds
      if 1 ≤ y ∧ 1 ≤ m ∧ m ≤ 12 ∧ 1 ≤ d ∧ d ≤ daysInMonth y m then
        some ⟨y, m, d⟩
      else none
    else none
  | _ => none

/-- Microseconds per day, the resolution of Python `datetime`. -/
def ticksPerDay : Nat := 86400000000

/-- The value of `datetime.now()` at request-processing time: a calendar
date plus the elapsed microseconds within that day. -/
structure Now where
  date : Date
  tick : Nat
deriving DecidableEq, Repr

/-- A `datetime` as a single microsecond count, for exact comparison. -/
def nowTicks (n : Now) : Nat :=
  toOrdinal n.date * ticksPerDay + n.tick

/-- Model of `filing_date_obj >= datetime.now() - timedelta(days=daysBack)`:
the filing date (at midnight) compared against now shifted back. -/
def onOrAfterDaysAgo (n : Now) (daysBack : Nat) (d : Date) : Prop :=
  (nowTicks n : Int) - (daysBack : Int) * (ticksPerDay : Int)
    ≤ (toOrdinal d : Int) * (ticksPerDay : Int)

instance (n : Now) (daysBack : Nat) (d : Date) :
    Decidable (onOrAfterDaysAgo n daysBack d) := by
  unfold onOrAfterDaysAgo; infer_instance

/-- Model of the absolute cutoff `filing_date_obj < datetime.now() -
timedelta(days=365*6)` at src/main.py line 338. -/
def olderThanSixYears (n : Now) (d : Date) : Prop :=
  (toOrdinal d : Int) * (ticksPerDay : Int)
    < (nowTicks n : Int) - 2190 * (ticksPerDay : Int)

instance (n : Now) (d : Date) : Decidable (olderThanSixYears n d) := by
  unfold olderThanSixYears; infer_instance

/-- Model of the pydantic `FileItem` of src/main.py lines 28-34. -/
structure FileItem where
  name : String
  type : String
  date : String
  size : String
  url : String
  download_url : Option String := none
deriving DecidableEq, Repr

/-- Model of Python `s.replace("-", "")` on accession numbers. -/
def removeDashes (s : String) : String :=
  ⟨s.data.filter (fun c => c ≠ '-')⟩

/-- Model of Python `s.lstrip("0")` on the CIK. -/
def lstripZeros (s : String) : String :=
  ⟨s.data.dropWhile (fun c => c = '0')⟩

/-- The EDGAR archive URL built for every filing of `get_sec_filings`. -/
def mkSecUrl (cik accessionNumber : String) : String :=
  "https://www.sec.gov/Archives/edgar/data/" ++ lstripZeros cik ++ "/"
    ++ removeDashes accessionNumber ++ "/" ++ accessionNumber ++ ".txt"

/-- The body of the per-row loop of `get_sec_filings` (src/main.py lines
332-400): parse the filing date (a failed parse skips the row), apply the
six-year absolute cutoff, then run the `quarterlyAnnual` branch chain
(10-K / 10-Q / DEF 14A) followed by the independent `form8k` check, which
can only set the row's item when the form is exactly `8-K` and the filing
date lies within a fixed 365-day window. -/
def classifyRow (cik : String) (file_types : List String)
    (quarters_back annuals_back : Nat) (now : Now)
    (form_type date_str accessionNumber : String) : Option FileItem :=
  match parseDate date_str with
  | none => none
  | some d =>
    if olderThanSixYears now d then none
    else
      let item1 : Option FileItem :=
        if "quarterlyAnnual" ∈ file_types then
          if form_type = "10-K" ∧ 0 < annuals_back then
            if (now.date.year : Int) - (d.year : Int) < (annuals_back : Int) then
              some { name := "10K_" ++ toString d.year ++ "_"
                       ++ removeDashes accessionNumber ++ ".pdf"
                   , type := "10-K Annual Filing"
                   , date := date_str
                   , size := "2.5 MB"
                   , url := mkSecUrl cik accessionNumber }
            else none
          else if form_type = "10-Q" ∧ 0 < quarters_back then
            if onOrAfterDaysAgo now (quarters_back * 3 * 30) d then
              some { name := "10Q_Q" ++ toString ((d.month - 1) / 3 + 1) ++ "_"
                       ++ toString d.year ++ "_"
                       ++ removeDashes accessionNumber ++ ".pdf"
                   , type := "10-Q Quarterly Filing"
                   , date := date_str
                   , size := "1.8 MB"
                   , url := mkSecUrl cik accessionNumber }
            else none
          else if form_type = "DEF 14A" ∧ 0 < annuals_back then
            if (now.date.year : Int) - (d.year : Int) < (annuals_back : Int) then
              some { name := "DEF14A_" ++ toString d.year ++ "_"
                       ++ removeDashes accessionNumber ++ ".pdf"
                   , type := "Proxy Statement"
                   , date := date_str
                   , size := "3.1 MB"
                   , url := mkSecUrl cik accessionNumber }
            else none
          else none
        else none
      if "form8k" ∈ file_types ∧ form_type = "8-K" then
        if onOrAfterDaysAgo now 365 d then
          some { name := "8K_" ++ date_str ++ "_"
                   ++ removeDashes accessionNumber ++ ".pdf"
               , type := "8-K Current Report"
               , date := date_str
               , size := "650 KB"
               , url := mkSecUrl cik accessionNumber }
        else item1
      else item1

/-- The `filings["recent"]` table: parallel arrays of form type, filing
date and accession number (src/main.py lines 327-334). -/
structure Submissions where
  form : List String
  filingDate : List String
  accessionNumber : List String
deriving DecidableEq, Repr

/-- Row records obtained by positional indexing into the parallel arrays.
The Python loop enumerates `form` and skips (via the caught `IndexError`)
any index missing from `filingDate` or `accessionNumber`, which is exactly
truncation to the shortest array. -/
def zipRows (form filingDate accessionNumber : List String) :
    List (String × String × String) :=
  form.zip (filingDate.zip accessionNumber)

/-- Accumulation of the admitted rows, in upstream order. -/
def processRows (cik : String) (file_types : List String)
    (quarters_back annuals_back : Nat) (now : Now)
    (rows : List (String × String × String)) : List FileItem :=
  rows.filterMap (fun r =>
    classifyRow cik file_types quarters_back annuals_back now r.1 r.2.1 r.2.2)

/-- Outcome of the submissions fetch: an HTTP response carrying a status
code and an optional "recent filings" table (`none` covers both an absent
and an empty table, which Python treats as falsy), or a network error
(any exception, caught at src/main.py lines 402-403). -/
inductive FetchOutcome where
  | response (status : Nat) (recent : Option Submissions)
  | networkError
deriving DecidableEq, Repr

/-- Model of `get_sec_filings` (src/main.py lines 314-405): rows are
processed only when the status is 200 and the recent table is present and
non-empty; a non-success status or a network error falls through every
branch and returns the initial empty `files` list. -/
def get_sec_filings (cik : String) (file_types : List String)
    (quarters_back annuals_back : Nat) (now : Now) :
    FetchOutcome → List FileItem
  | .response status recent =>
    if status = 200 then
      match recent with
      | some subs =>
        processRows cik file_types quarters_back annuals_back now
          (zipRows subs.form subs.filingDate subs.accessionNumber)
      | none => []
    else []
  | .networkError => []

/-- The relay rewrite applied inside the deduplication loop of
`search_company` (src/main.py lines 697-700): the descriptor URL becomes a
same-origin `/proxy` URL and a `/download` URL is attached, both built
from the original URL. -/
def relayRewrite (scheme netloc : String) (f : FileItem) : FileItem :=
  { f with
    url := scheme ++ "://" ++ netloc ++ "/proxy?url=" ++ f.url
  , download_url := some (scheme ++ "://" ++ netloc ++ "/download?url="
      ++ f.url ++ "&filename=" ++ f.name) }

/-- The deduplication loop of `search_company` (src/main.py lines 692-703):
walk the merged list keeping the set of names already seen; a file whose
name was seen is discarded, otherwise it is relay-rewritten and kept. -/
def dedupRelay (scheme netloc : String) :
    List FileItem → List String → List FileItem
  | [], _ => []
  | f :: rest, seen =>
    if f.name ∈ seen then dedupRelay scheme netloc rest seen
    else relayRewrite scheme netloc f
      :: dedupRelay scheme netloc rest (f.name :: seen)

/-- The descending date order used by
`unique_files.sort(key=lambda x: x.date, reverse=True)`: Python compares
the `date` strings lexicographically by code point, exactly the `String`
order. -/
def dateGe (x y : FileItem) : Prop := y.date ≤ x.date

instance : DecidableRel dateGe := fun x y =>
  inferInstanceAs (Decidable (y.date ≤ x.date))

instance : IsTotal FileItem dateGe := ⟨fun a b => le_total b.date a.date⟩

instance : IsTrans FileItem dateGe :=
  ⟨fun _ _ _ hab hbc => le_trans hbc hab⟩

/-- Model of `unique_files.sort(key=lambda x: x.date, reverse=True)`
(src/main.py line 706). CPython `list.sort` with `reverse=True` is the
unique stable descending sort by the key; insertion sort with the
descending relation realizes exactly that permutation. -/
def sortFilesByDateDesc (l : List FileItem) : List FileItem :=
  List.insertionSort dateGe l

/-- The whole aggregation block of `search_company` (src/main.py lines
680-706): merge the regulatory-feed files before the IR-site files,
deduplicate by name with relay rewriting, then stably sort by date
descending. -/
def aggregate (scheme netloc : String) (secFiles irFiles : List FileItem) :
    List FileItem :=
  sortFilesByDateDesc (dedupRelay scheme netloc (secFiles ++ irFiles) [])

/-- Model of Python `str.upper` over the characters of a ticker. -/
def pyUpper (s : String) : String :=
  ⟨s.data.map Char.toUpper⟩

/-- Model of Python `str.strip` (whitespace on both ends). -/
def pyStrip (s : String) : String :=
  ⟨((s.data.dropWhile Char.isWhitespace).reverse.dropWhile
      Char.isWhitespace).reverse⟩

/-- The ways the `search_company` endpoint terminates abnormally:
`invalidInput` models the HTTP 400 for a missing ticker, `notFound` the
HTTP 404 for an unresolvable ticker, and `nameError` the uncaught Python
`NameError` raised at src/main.py line 674, where the undefined name
`company_name` is referenced. -/
inductive SearchError where
  | invalidInput (detail : String)
  | notFound (detail : String)
  | nameError (name : String)
deriving DecidableEq, Repr

/-- Model of the pydantic `CompanyData` (src/main.py lines 36-40). -/
structure CompanyData where
  ticker : String
  name : String
  cik : String
  exchange : String
deriving DecidableEq, Repr

/-- Model of the pydantic `SearchResponse` (src/main.py lines 42-44). -/
structure SearchResponse where
  company : CompanyData
  files : List FileItem
deriving DecidableEq, Repr

/-- Model of the `search_company` endpoint body (src/main.py lines
650-711). The `resolver` argument abstracts `get_cik_from_ticker`. An
empty ticker yields the 400 error; then the ticker is uppercased and
stripped and resolved; an unresolvable ticker yields the 404 error; and a
resolved ticker reaches line 674, where the reference to the undefined
name `company_name` raises `NameError` before any response can be built,
so the remainder of the endpoint is unreachable. -/
def search_company (resolver : String → Option String) (ticker : String)
    (file_types : List String) (quarters_back annuals_back : Nat)
    (exchange : String) : Except SearchError SearchResponse :=
  if ticker = "" then
    .error (.invalidInput "Ticker symbol is required")
  else
    let t := pyStrip (pyUpper ticker)
    match resolver t with
    | none => .error (.notFound ("Company not found for ticker: " ++ t))
    | some _cik => .error (.nameError "company_name")

/-- Modelled from the spec: the decision table of §4.3 mapping each
requested category to the filing kinds it admits. Used only to state the
claims that compare the code against the table; the code itself is the
authority embedded in `classifyRow`. -/
def tableKinds : String → List String
  | "quarterlyAnnual" => ["10-K", "10-K/A", "10-Q", "10-Q/A", "DEF 14A"]
  | "form8k" => ["8-K", "8-K/A"]
  | "earnings" => ["8-K"]
  | "presentations" => ["8-K", "DEF 14A"]
  | _ => []

/-- Modelled from the spec: the fixed category vocabulary of §3. -/
def categoryVocabulary : List String :=
  ["quarterlyAnnual", "form8k", "earnings", "presentations"]

/-- Modelled from the spec: the recency rule "filing date ≥ today −
daysBack days", compared at day granularity with "today" the
request-processing date. -/
def specRecencyOK (today : Date) (daysBack : Nat) (d : Date) : Prop :=
  (toOrdinal today : Int) - (daysBack : Int) ≤ (toOrdinal d : Int)

instance (today : Date) (daysBack : Nat) (d : Date) :
    Decidable (specRecencyOK today daysBack d) := by
  unfold specRecencyOK; infer_instance

/-! ### Concrete fixtures used by counterexamples and witnesses -/

/-- A request-processing time of 2025-06-15, exactly at midnight. -/
def now0 : Now := ⟨⟨2025, 6, 15⟩, 0⟩

/-- A request-processing time of 2026-01-10, exactly at midnight. -/
def now1 : Now := ⟨⟨2026, 1, 10⟩, 0⟩

/-- The CIK string used by the concrete fixtures. -/
def cik0 : String := "0000320193"

/-- A history holding one 8-K filed two weeks before `now0`. -/
def subs8kRecent : Submissions :=
  ⟨["8-K"], ["2025-06-01"], ["0001234567-25-000001"]⟩

/-- A history holding one 8-K filed 362 days before `now0`: outside a
360-day window, inside a 365-day window. -/
def subs8k362 : Submissions :=
  ⟨["8-K"], ["2024-06-18"], ["0001234567-24-000002"]⟩

/-- A history holding one 10-K filed 21 days before `now1` but in the
previous calendar year. -/
def subs10kDec : Submissions :=
  ⟨["10-K"], ["2025-12-20"], ["0001234567-25-000123"]⟩

/-- A history holding one 10-K filed in the current calendar year of
`now0`, admitted under `quarterlyAnnual` with `annuals_back = 5`. -/
def subs10kGood : Submissions :=
  ⟨["10-K"], ["2025-02-01"], ["0001234567-25-000009"]⟩

/-- A resolver that resolves exactly the ticker AAPL. -/
def resolverAAPL : String → Option String :=
  fun t => if t = "AAPL" then some "0000320193" else none

/-- A resolver that resolves nothing. -/
def resolverNone : String → Option String := fun _ => none

/-- A regulatory-feed descriptor used by the aggregation fixtures. -/
def fitA : FileItem :=
  ⟨"10K_2024_000123456724000001.pdf", "10-K Annual Filing", "2024-11-01",
    "2.5 MB", "https://example.com/a", none⟩

/-- A secondary-source descriptor sharing the display name of `fitA`. -/
def fitA2 : FileItem :=
  ⟨"10K_2024_000123456724000001.pdf", "10-K Annual Filing", "2024-10-01",
    "2.5 MB", "https://example.com/b", none⟩

/-- A secondary-source descriptor with a distinct display name. -/
def fitB : FileItem :=
  ⟨"8K_2025-01-15_000123456725000002.pdf", "8-K Current Report",
    "2025-01-15", "650 KB", "https://example.com/c", none⟩

/-! ### Helper lemmas about the classifier -/

/-- A row whose filing date fails the `%Y-%m-%d` parse is skipped: the
`ValueError` of `strptime` is caught and the loop continues. -/
theorem classifyRow_parse_fail (cik : String) (fts : List String)
    (q a : Nat) (now : Now) (f ds acc : String) (hp : parseDate ds = none) :
    classifyRow cik fts q a now f ds acc = none := by
  simp [classifyRow, hp]

/-- A row is never admitted when its form neither matches the
`quarterlyAnnual` branch forms (when that category is requested) nor the
`form8k` branch form (when that category is requested). -/
theorem classifyRow_excluded (cik : String) (fts : List String)
    (q a : Nat) (now : Now) (f ds acc : String)
    (hqa : "quarterlyAnnual" ∈ fts → f ≠ "10-K" ∧ f ≠ "10-Q" ∧ f ≠ "DEF 14A")
    (h8k : "form8k" ∈ fts → f ≠ "8-K") :
    classifyRow cik fts q a now f ds acc = none := by
  match hp : parseDate ds with
  | none => simp [classifyRow, hp]
  | some d =>
    by_cases hq : "quarterlyAnnual" ∈ fts <;> by_cases h8 : "form8k" ∈ fts
    · obtain ⟨e1, e2, e3⟩ := hqa hq
      simp [classifyRow, hp, hq, h8, e1, e2, e3, h8k h8]
    · obtain ⟨e1, e2, e3⟩ := hqa hq
      simp [classifyRow, hp, hq, h8, e1, e2, e3]
    · simp [classifyRow, hp, hq, h8, h8k h8]
    · simp [classifyRow, hp, hq, h8]

/-- With both lookback counters at zero, the `quarterlyAnnual` branch
chain is dead (each arm requires a positive counter), so a row can only be
admitted through the `form8k` branch. -/
theorem classifyRow_zero_backs (cik : String) (fts : List String)
    (now : Now) (f ds acc : String) (h8k : "form8k" ∉ fts) :
    classifyRow cik fts 0 0 now f ds acc = none := by
  match hp : parseDate ds with
  | none => simp [classifyRow, hp]
  | some d => simp [classifyRow, hp, h8k]

/-- If every row is rejected by the classifier, the whole fetch returns
the empty list, whatever the fetch outcome. -/
theorem get_sec_filings_eq_nil (cik : String) (fts : List String)
    (q a : Nat) (now : Now) (fo : FetchOutcome)
    (h : ∀ f ds acc, classifyRow cik fts q a now f ds acc = none) :
    get_sec_filings cik fts q a now fo = [] := by
  cases fo with
  | networkError => rfl
  | response status recent =>
    cases recent with
    | none => simp [get_sec_filings]
    | some subs =>
      simp only [get_sec_filings]
      split
      · simp only [processRows, List.filterMap_eq_nil_iff]
        intro r _
        exact h r.1 r.2.1 r.2.2
      · rfl

/-- A filing older than the absolute six-year cutoff is in particular not
within the 365-day window of the `form8k` branch. -/
theorem older_not_within365 (n : Now) (d : Date)
    (h : olderThanSixYears n d) : ¬ onOrAfterDaysAgo n 365 d := by
  unfold olderThanSixYears at h
  unfold onOrAfterDaysAgo
  unfold ticksPerDay at h ⊢
  omega

/-! ### Claim C1 -/

/-- C1: the claim states that every search whose ticker resolves builds
the identity part of the response and returns a successful `SearchResult`.
The code contradicts it: a resolved search reaches the reference to the
undefined name `company_name` (src/main.py line 674) and dies with a
`NameError` before any response is built. Here the ticker AAPL resolves,
and the endpoint returns exactly that error. -/
theorem c1_resolved_search_hits_undefined_name :
    search_company resolverAAPL "AAPL" ["quarterlyAnnual"] 4 5 "auto"
      = .error (.nameError "company_name") := by
  rfl

/-! ### Claim C2 -/

/-- C2 (counterexample): with `annuals_back = 0` and `quarters_back = 0`
the claim says zero rows are admitted for any category set, but with the
`form8k` category requested, an 8-K filed two weeks before now is still
admitted, because the 8-K window is a fixed 365 days independent of
`quarters_back`. -/
theorem c2_counterexample :
    (get_sec_filings cik0 ["form8k"] 0 0 now0
      (.response 200 (some subs8kRecent))).length = 1 := by
  rfl

/-- C2 (amended): with `annuals_back = 0` and `quarters_back = 0` the
classifier admits zero rows provided the requested categories do not
include `form8k`; the `form8k` bucket alone escapes the zero windows,
since its 365-day window ignores `quarters_back`. -/
theorem c2_zero_windows_admit_nothing (cik : String) (fts : List String)
    (now : Now) (fo : FetchOutcome) (h8k : "form8k" ∉ fts) :
    get_sec_filings cik fts 0 0 now fo = [] :=
  get_sec_filings_eq_nil cik fts 0 0 now fo
    (fun f ds acc => classifyRow_zero_backs cik fts now f ds acc h8k)

/-- Witness for `c2_zero_windows_admit_nothing` at a concrete input. -/
theorem c2_zero_windows_admit_nothing_witness :
    ("form8k" ∉ (["quarterlyAnnual"] : List String))
    ∧ get_sec_filings cik0 ["quarterlyAnnual"] 0 0 now0
        (.response 200 (some subs10kGood)) = [] :=
  ⟨by decide, c2_zero_windows_admit_nothing cik0 ["quarterlyAnnual"] now0
    (.response 200 (some subs10kGood)) (by decide)⟩

/-! ### Claim C8 -/

/-- C8: a row whose filing date fails the `%Y-%m-%d` parse is skipped and
exactly that row: the rows before and after it are classified as if the
malformed row were absent, and the call is a total function, so the
request still succeeds. -/
theorem c8_malformed_date_skips_only_that_row (cik : String)
    (fts : List String) (q a : Nat) (now : Now)
    (l1 l2 : List (String × String × String)) (f ds acc : String)
    (hp : parseDate ds = none) :
    processRows cik fts q a now (l1 ++ (f, ds, acc) :: l2)
      = processRows cik fts q a now (l1 ++ l2) := by
  have h0 : classifyRow cik fts q a now f ds acc = none :=
    classifyRow_parse_fail cik fts q a now f ds acc hp
  simp [processRows, h0]

/-- Witness for `c8_malformed_date_skips_only_that_row`: the spec's own
example date `2024-13-40` fails the parse and its row alone is dropped. -/
theorem c8_malformed_date_witness :
    parseDate "2024-13-40" = none
    ∧ processRows cik0 ["quarterlyAnnual"] 4 5 now0
        ([("10-K", "2025-02-01", "0001234567-25-000009")]
          ++ ("10-K", "2024-13-40", "0001234567-24-000099")
            :: [("8-K", "2025-06-01", "0001234567-25-000001")])
      = processRows cik0 ["quarterlyAnnual"] 4 5 now0
          ([("10-K", "2025-02-01", "0001234567-25-000009")]
            ++ [("8-K", "2025-06-01", "0001234567-25-000001")]) :=
  ⟨by decide, c8_malformed_date_skips_only_that_row cik0 ["quarterlyAnnual"]
    4 5 now0 [("10-K", "2025-02-01", "0001234567-25-000009")]
    [("8-K", "2025-06-01", "0001234567-25-000001")]
    "10-K" "2024-13-40" "0001234567-24-000099" (by decide)⟩

/-! ### Claim C9 -/

/-- C9 (counterexample): a search with a non-empty ticker and an empty
category set is not rejected with the `InvalidInput` client error and the
request is attempted: identifier resolution runs (the outcome depends on
the resolver), and with a resolving ticker the call proceeds past
resolution into the undefined-name failure. -/
theorem c9_counterexample :
    search_company resolverAAPL "AAPL" [] 4 5 "auto"
      = .error (.nameError "company_name")
    ∧ search_company resolverNone "AAPL" [] 4 5 "auto"
      = .error (.notFound "Company not found for ticker: AAPL") :=
  ⟨rfl, rfl⟩

/-- C9 (amended): the endpoint validates only the ticker; an empty
category set is never rejected as `InvalidInput`. With a non-empty ticker
the request proceeds to identifier resolution, and when resolution
succeeds it then fails with the undefined-name error of line 674. -/
theorem c9_empty_categories_not_validated
    (resolver : String → Option String) (ticker : String) (q a : Nat)
    (ex : String) (h : ticker ≠ "") :
    (∀ dtl, search_company resolver ticker [] q a ex
      ≠ .error (.invalidInput dtl))
    ∧ ((resolver (pyStrip (pyUpper ticker))).isSome = true →
        search_company resolver ticker [] q a ex
          = .error (.nameError "company_name")) := by
  constructor
  · intro dtl
    unfold search_company
    rw [if_neg h]
    cases hr : resolver (pyStrip (pyUpper ticker)) <;> simp [hr]
  · intro hres
    unfold search_company
    rw [if_neg h]
    cases hr : resolver (pyStrip (pyUpper ticker)) with
    | none => rw [hr] at hres; simp at hres
    | some c => simp [hr]

/-- Witness for `c9_empty_categories_not_validated` at a concrete input. -/
theorem c9_empty_categories_witness :
    (∀ dtl, search_company resolverAAPL "AAPL" [] 4 5 "auto"
      ≠ .error (.invalidInput dtl))
    ∧ ((resolverAAPL (pyStrip (pyUpper "AAPL"))).isSome = true →
        search_company resolverAAPL "AAPL" [] 4 5 "auto"
          = .error (.nameError "company_name")) :=
  c9_empty_categories_not_validated resolverAAPL "AAPL" 4 5 "auto"
    (by decide)

/-! ### Claim C10 -/

/-- C10 (counterexample): a non-success status (and likewise a network
error) does not fail the History Fetcher: it silently yields the empty
list, indistinguishable from a filer with no qualifying documents, even
though the very same submissions table yields a document under status
200. -/
theorem c10_counterexample :
    get_sec_filings cik0 ["quarterlyAnnual"] 4 5 now0
      (.response 503 (some subs10kGood)) = []
    ∧ get_sec_filings cik0 ["quarterlyAnnual"] 4 5 now0 .networkError = []
    ∧ (get_sec_filings cik0 ["quarterlyAnnual"] 4 5 now0
        (.response 200 (some subs10kGood))).length = 1 :=
  ⟨rfl, rfl, rfl⟩

/-- C10 (amended): on a non-success status or a network error,
`get_sec_filings` returns the empty list and no error is surfaced; the
search would proceed with an empty regulatory-feed contribution. -/
theorem c10_upstream_failure_degrades_to_empty (cik : String)
    (fts : List String) (q a : Nat) (now : Now) (status : Nat)
    (recent : Option Submissions) (h : status ≠ 200) :
    get_sec_filings cik fts q a now (.response status recent) = []
    ∧ get_sec_filings cik fts q a now .networkError = [] := by
  constructor
  · simp only [get_sec_filings]
    rw [if_neg h]
  · rfl

/-- Witness for `c10_upstream_failure_degrades_to_empty` at status 503. -/
theorem c10_upstream_failure_witness :
    get_sec_filings cik0 ["quarterlyAnnual"] 4 5 now0
      (.response 503 (some subs10kGood)) = []
    ∧ get_sec_filings cik0 ["quarterlyAnnual"] 4 5 now0 .networkError = [] :=
  c10_upstream_failure_degrades_to_empty cik0 ["quarterlyAnnual"] 4 5 now0
    503 (some subs10kGood) (by decide)

/-! ### Claim C3 -/

/-- C3 (counterexample): the claim ties the 8-K window to
`quarters_back × 90` days, but the code uses a fixed 365-day window. With
`quarters_back = 4` an 8-K filed 362 days ago lies outside the claimed
360-day window yet is admitted. -/
theorem c3_counterexample :
    (get_sec_filings cik0 ["form8k"] 4 5 now0
      (.response 200 (some subs8k362))).length = 1
    ∧ parseDate "2024-06-18" = some ⟨2024, 6, 18⟩
    ∧ ¬ specRecencyOK now0.date (4 * 90) ⟨2024, 6, 18⟩ :=
  ⟨rfl, by decide, by decide⟩

/-- C3 (amended): when the requested categories include `form8k`, a row
whose form is exactly `8-K` is admitted if and only if its filing date is
within a fixed 365-day window before now — independent of
`quarters_back` — and a row with form `8-K/A` is never admitted. -/
theorem c3_fixed_365_day_8k_window (cik : String) (fts : List String)
    (q a : Nat) (now : Now) (ds acc ds2 acc2 : String) (d : Date)
    (hm : "form8k" ∈ fts) (hp : parseDate ds = some d) :
    ((classifyRow cik fts q a now "8-K" ds acc).isSome = true
      ↔ onOrAfterDaysAgo now 365 d)
    ∧ classifyRow cik fts q a now "8-K/A" ds2 acc2 = none := by
  constructor
  · by_cases ho : olderThanSixYears now d
    · have hw := older_not_within365 now d ho
      simp [classifyRow, hp, ho, hw]
    · by_cases hw : onOrAfterDaysAgo now 365 d
      · simp [classifyRow, hp, ho, hw, hm]
      · simp [classifyRow, hp, ho, hw, hm]
  · exact classifyRow_excluded cik fts q a now "8-K/A" ds2 acc2
      (fun _ => by decide) (fun _ => by decide)

/-- Witness for `c3_fixed_365_day_8k_window` at the 362-day-old 8-K. -/
theorem c3_fixed_365_day_8k_window_witness :
    ((classifyRow cik0 ["form8k"] 4 5 now0 "8-K" "2024-06-18"
        "0001234567-24-000002").isSome = true
      ↔ onOrAfterDaysAgo now0 365 ⟨2024, 6, 18⟩)
    ∧ classifyRow cik0 ["form8k"] 4 5 now0 "8-K/A" "2024-06-18"
        "0001234567-24-000002" = none :=
  c3_fixed_365_day_8k_window cik0 ["form8k"] 4 5 now0 "2024-06-18"
    "0001234567-24-000002" "2024-06-18" "0001234567-24-000002"
    ⟨2024, 6, 18⟩ (by decide) (by decide)

/-! ### Claim C4 -/

/-- C4 (counterexample): the claim gives 10-K and DEF 14A a day-window of
`annuals_back × 365` days, but the code compares calendar years. A 10-K
filed 21 days ago (2025-12-20, now 2026-01-10) is inside the claimed
365-day window with `annuals_back = 1`, yet the code rejects it because
it belongs to the previous calendar year. -/
theorem c4_counterexample :
    get_sec_filings cik0 ["quarterlyAnnual"] 4 1 now1
      (.response 200 (some subs10kDec)) = []
    ∧ parseDate "2025-12-20" = some ⟨2025, 12, 20⟩
    ∧ specRecencyOK now1.date (1 * 365) ⟨2025, 12, 20⟩ :=
  ⟨rfl, by decide, by decide⟩

/-- C4 (amended): when the requested categories include `quarterlyAnnual`,
a row whose form is exactly `10-K` or `DEF 14A` is admitted if and only if
it passes the absolute six-year cutoff, `annuals_back` is positive, and
`current year − filing year < annuals_back` as a calendar-year
comparison; a row with form `10-K/A` is never admitted. -/
theorem c4_annual_rule_is_calendar_year (cik : String) (fts : List String)
    (q a : Nat) (now : Now) (f ds acc ds2 acc2 : String) (d : Date)
    (hf : f = "10-K" ∨ f = "DEF 14A") (hm : "quarterlyAnnual" ∈ fts)
    (hp : parseDate ds = some d) :
    ((classifyRow cik fts q a now f ds acc).isSome = true
      ↔ (¬ olderThanSixYears now d ∧ 0 < a
          ∧ (now.date.year : Int) - (d.year : Int) < (a : Int)))
    ∧ classifyRow cik fts q a now "10-K/A" ds2 acc2 = none := by
  constructor
  · rcases hf with rfl | rfl <;>
      by_cases ho : olderThanSixYears now d <;>
      by_cases ha : 0 < a <;>
      by_cases hy : (now.date.year : Int) - (d.year : Int) < (a : Int) <;>
      simp [classifyRow, hp, hm, ho, ha, hy]
  · exact classifyRow_excluded cik fts q a now "10-K/A" ds2 acc2
      (fun _ => by decide) (fun _ => by decide)

/-- Witness for `c4_annual_rule_is_calendar_year` at the December 10-K. -/
theorem c4_annual_rule_witness :
    ((classifyRow cik0 ["quarterlyAnnual"] 4 1 now1 "10-K" "2025-12-20"
        "0001234567-25-000123").isSome = true
      ↔ (¬ olderThanSixYears now1 ⟨2025, 12, 20⟩ ∧ 0 < 1
          ∧ (now1.date.year : Int) - ((2025 : Nat) : Int) < ((1 : Nat) : Int)))
    ∧ classifyRow cik0 ["quarterlyAnnual"] 4 1 now1 "10-K/A" "2025-12-20"
        "0001234567-25-000123" = none :=
  c4_annual_rule_is_calendar_year cik0 ["quarterlyAnnual"] 4 1 now1 "10-K"
    "2025-12-20" "0001234567-25-000123" "2025-12-20" "0001234567-25-000123"
    ⟨2025, 12, 20⟩ (Or.inl rfl) (by decide) (by decide)

/-! ### Claim C5 -/

/-- C5: a row whose form kind is absent from the decision table under
every requested category is never admitted, whatever its date; and
category tokens outside the fixed vocabulary match no rows: the fetch
returns the empty list (the embedded classifier is a total function, so
no error is possible). -/
theorem c5_untabled_kinds_never_admitted (cik : String) (fts : List String)
    (q a : Nat) (now : Now) (f ds acc : String) (fo : FetchOutcome) :
    ((∀ c ∈ fts, f ∉ tableKinds c) →
      classifyRow cik fts q a now f ds acc = none)
    ∧ ((∀ c ∈ fts, c ∉ categoryVocabulary) →
      get_sec_filings cik fts q a now fo = []) := by
  constructor
  · intro h
    refine classifyRow_excluded cik fts q a now f ds acc ?_ ?_
    · intro hmem
      have hf := h _ hmem
      simp only [tableKinds, List.mem_cons, List.not_mem_nil] at hf
      push_neg at hf
      exact ⟨hf.1, hf.2.2.1, hf.2.2.2.2.1⟩
    · intro hmem
      have hf := h _ hmem
      simp only [tableKinds, List.mem_cons, List.not_mem_nil] at hf
      push_neg at hf
      exact hf.1
  · intro h
    refine get_sec_filings_eq_nil cik fts q a now fo ?_
    intro f2 ds2 acc2
    refine classifyRow_excluded cik fts q a now f2 ds2 acc2 ?_ ?_
    · intro hmem
      exact absurd (by decide : "quarterlyAnnual" ∈ categoryVocabulary)
        (h _ hmem)
    · intro hmem
      exact absurd (by decide : "form8k" ∈ categoryVocabulary) (h _ hmem)

/-- Witness for `c5_untabled_kinds_never_admitted`: an 8-K is excluded
under a `quarterlyAnnual`-only request, and a request made only of the
unknown token `mystery` matches nothing. -/
theorem c5_untabled_kinds_witness :
    classifyRow cik0 ["quarterlyAnnual"] 4 5 now0 "8-K" "2025-06-01"
      "0001234567-25-000001" = none
    ∧ get_sec_filings cik0 ["mystery"] 4 5 now0
        (.response 200 (some subs8kRecent)) = [] :=
  ⟨(c5_untabled_kinds_never_admitted cik0 ["quarterlyAnnual"] 4 5 now0
      "8-K" "2025-06-01" "0001234567-25-000001"
      (.response 200 (some subs8kRecent))).1 (by decide),
   (c5_untabled_kinds_never_admitted cik0 ["mystery"] 4 5 now0 "8-K"
      "2025-06-01" "0001234567-25-000001"
      (.response 200 (some subs8kRecent))).2 (by decide)⟩

/-! ### Helper lemmas about the aggregation block -/

/-- The relay rewrite leaves the display name unchanged. -/
theorem relayRewrite_name (s n : String) (f : FileItem) :
    (relayRewrite s n f).name = f.name := rfl

/-- The output of the deduplication loop has pairwise-distinct names and
contains no name from the already-seen set. -/
theorem dedupRelay_names_nodup (s n : String) :
    ∀ (l : List FileItem) (seen : List String),
      ((dedupRelay s n l seen).map FileItem.name).Nodup
      ∧ ∀ g ∈ dedupRelay s n l seen, g.name ∉ seen := by
  intro l
  induction l with
  | nil =>
    intro seen
    exact ⟨List.nodup_nil, fun g hg => absurd hg (List.not_mem_nil g)⟩
  | cons f rest ih =>
    intro seen
    by_cases hmem : f.name ∈ seen
    · simpa [dedupRelay, hmem] using ih seen
    · have ih2 := ih (f.name :: seen)
      constructor
      · simp only [dedupRelay, if_neg hmem, List.map_cons, List.nodup_cons]
        refine ⟨?_, ih2.1⟩
        intro hin
        rcases List.mem_map.mp hin with ⟨g, hg, hgname⟩
        have hg3 := ih2.2 g hg
        rw [relayRewrite_name] at hgname
        exact hg3 (by rw [hgname]; exact List.mem_cons_self _ _)
      · intro g hg
        rw [dedupRelay, if_neg hmem] at hg
        rcases List.mem_cons.mp hg with rfl | hg2
        · rw [relayRewrite_name]; exact hmem
        · have := ih2.2 g hg2
          exact fun hs => this (List.mem_cons_of_mem _ hs)

/-- Every name of the input list survives deduplication unless it was
already in the seen set. -/
theorem dedupRelay_covers (s n : String) :
    ∀ (l : List FileItem) (seen : List String) (f : FileItem), f ∈ l →
      f.name ∈ seen ∨ ∃ g ∈ dedupRelay s n l seen, g.name = f.name := by
  intro l
  induction l with
  | nil => intro seen f hf; exact absurd hf (List.not_mem_nil f)
  | cons x rest ih =>
    intro seen f hf
    by_cases hmem : x.name ∈ seen
    · rcases List.mem_cons.mp hf with rfl | hf2
      · exact Or.inl hmem
      · rcases ih seen f hf2 with h | ⟨g, hg, he⟩
        · exact Or.inl h
        · refine Or.inr ⟨g, ?_, he⟩
          rw [dedupRelay, if_pos hmem]
          exact hg
    · rcases List.mem_cons.mp hf with rfl | hf2
      · refine Or.inr ⟨relayRewrite s n f, ?_, relayRewrite_name s n f⟩
        rw [dedupRelay, if_neg hmem]
        exact List.mem_cons_self _ _
      · rcases ih (x.name :: seen) f hf2 with h | ⟨g, hg, he⟩
        · rcases List.mem_cons.mp h with he2 | hs
          · refine Or.inr ⟨relayRewrite s n x, ?_, ?_⟩
            · rw [dedupRelay, if_neg hmem]
              exact List.mem_cons_self _ _
            · rw [relayRewrite_name, he2]
          · exact Or.inl hs
        · refine Or.inr ⟨g, ?_, he⟩
          rw [dedupRelay, if_neg hmem]
          exact List.mem_cons_of_mem _ hg

/-- Every survivor of deduplication is the relay rewrite of the first
element of the input carrying its name. -/
theorem dedupRelay_first_wins (s n : String) :
    ∀ (l : List FileItem) (seen : List String) (g : FileItem),
      g ∈ dedupRelay s n l seen →
      ∃ f, l.find? (fun x => x.name == g.name) = some f
        ∧ g = relayRewrite s n f := by
  intro l
  induction l with
  | nil => intro seen g hg; exact absurd hg (List.not_mem_nil g)
  | cons x rest ih =>
    intro seen g hg
    by_cases hmem : x.name ∈ seen
    · rw [dedupRelay, if_pos hmem] at hg
      have hgs : g.name ∉ seen := (dedupRelay_names_nodup s n rest seen).2 g hg
      rcases ih seen g hg with ⟨f, hfind, hrel⟩
      refine ⟨f, ?_, hrel⟩
      have hres : List.find? (fun y => y.name == g.name) (x :: rest)
          = List.find? (fun y => y.name == g.name) rest :=
        List.find?_cons_of_neg rest (by
          simp only [beq_iff_eq]
          intro he
          exact hgs (he ▸ hmem))
      rw [hres]
      exact hfind
    · rw [dedupRelay, if_neg hmem] at hg
      rcases List.mem_cons.mp hg with rfl | hg2
      · refine ⟨x, ?_, rfl⟩
        exact List.find?_cons_of_pos rest (by simp [relayRewrite_name])
      · have hgs : g.name ∉ x.name :: seen :=
          (dedupRelay_names_nodup s n rest (x.name :: seen)).2 g hg2
        rcases ih (x.name :: seen) g hg2 with ⟨f, hfind, hrel⟩
        refine ⟨f, ?_, hrel⟩
        have hres : List.find? (fun y => y.name == g.name) (x :: rest)
            = List.find? (fun y => y.name == g.name) rest :=
          List.find?_cons_of_neg rest (by
            simp only [beq_iff_eq]
            intro he
            exact hgs (by rw [← he]; exact List.mem_cons_self _ _))
        rw [hres]
        exact hfind

/-! ### Claim C6 -/

/-- C6: the Aggregator merges the regulatory-feed files strictly before
the secondary-source files and deduplicates by display name with the
first occurrence winning: the surviving names are pairwise distinct,
every merged file's name is represented, and every survivor is the relay
rewrite of the first file in merge order carrying its name — so a
regulatory-feed copy always beats a later secondary-source duplicate. -/
theorem c6_first_occurrence_wins (scheme netloc : String)
    (secFiles irFiles : List FileItem) :
    (((dedupRelay scheme netloc (secFiles ++ irFiles) []).map
        FileItem.name).Nodup)
    ∧ (∀ f ∈ secFiles ++ irFiles,
        ∃ g ∈ dedupRelay scheme netloc (secFiles ++ irFiles) [],
          g.name = f.name)
    ∧ (∀ g ∈ dedupRelay scheme netloc (secFiles ++ irFiles) [],
        ∃ f, (secFiles ++ irFiles).find? (fun x => x.name == g.name) = some f
          ∧ g = relayRewrite scheme netloc f) := by
  refine ⟨(dedupRelay_names_nodup scheme netloc (secFiles ++ irFiles) []).1,
    ?_, ?_⟩
  · intro f hf
    rcases dedupRelay_covers scheme netloc (secFiles ++ irFiles) [] f hf with
      h | h
    · exact absurd h (List.not_mem_nil f.name)
    · exact h
  · intro g hg
    exact dedupRelay_first_wins scheme netloc (secFiles ++ irFiles) [] g hg

/-- Witness for `c6_first_occurrence_wins`: two sources each carry a
descriptor named `10K_2024_000123456724000001.pdf`; exactly one survives
and every survivor traces back to the first occurrence in merge order. -/
theorem c6_first_occurrence_wins_witness :
    (((dedupRelay "http" "host" ([fitA] ++ [fitA2, fitB]) []).map
        FileItem.name).Nodup)
    ∧ (∃ g ∈ dedupRelay "http" "host" ([fitA] ++ [fitA2, fitB]) [],
        g.name = fitA2.name)
    ∧ (∀ g ∈ dedupRelay "http" "host" ([fitA] ++ [fitA2, fitB]) [],
        ∃ f, ([fitA] ++ [fitA2, fitB]).find? (fun x => x.name == g.name)
            = some f
          ∧ g = relayRewrite "http" "host" f) := by
  obtain ⟨h1, h2, h3⟩ := c6_first_occurrence_wins "http" "host" [fitA]
    [fitA2, fitB]
  exact ⟨h1, h2 fitA2 (by decide), h3⟩

/-- Inserting a file whose date equals the filter key prepends it to the
date-filtered subsequence: the descending insertion never passes over an
equal-dated element. -/
theorem filter_orderedInsert_pos (dstr : String) (x : FileItem)
    (hx : x.date = dstr) (l : List FileItem) :
    (List.orderedInsert dateGe x l).filter (fun y => y.date == dstr)
      = x :: l.filter (fun y => y.date == dstr) := by
  have hxb : ((fun z : FileItem => z.date == dstr) x) = true := by simp [hx]
  induction l with
  | nil => simp [hxb]
  | cons y ys ih =>
    by_cases h : dateGe x y
    · rw [List.orderedInsert, if_pos h, List.filter_cons, if_pos hxb]
    · have hyb : ((fun z : FileItem => z.date == dstr) y) = false := by
        simp only [beq_eq_false_iff_ne, ne_eq]
        intro e
        exact h (le_of_eq (by rw [e, hx]))
      rw [List.orderedInsert, if_neg h, List.filter_cons,
        if_neg (by simp [hyb]), ih, List.filter_cons,
        if_neg (by simp [hyb])]

/-- Inserting a file whose date differs from the filter key leaves the
date-filtered subsequence unchanged. -/
theorem filter_orderedInsert_neg (dstr : String) (x : FileItem)
    (hx : x.date ≠ dstr) (l : List FileItem) :
    (List.orderedInsert dateGe x l).filter (fun y => y.date == dstr)
      = l.filter (fun y => y.date == dstr) := by
  have hxb : ((fun z : FileItem => z.date == dstr) x) = false := by
    simp only [beq_eq_false_iff_ne, ne_eq]
    exact hx
  induction l with
  | nil => simp [hxb]
  | cons y ys ih =>
    by_cases h : dateGe x y
    · rw [List.orderedInsert, if_pos h, List.filter_cons,
        if_neg (by simp [hxb])]
    · rw [List.orderedInsert, if_neg h, List.filter_cons, List.filter_cons,
        ih]

/-- Stability of the descending sort: for every date value, the
subsequence of files carrying that date is exactly the one of the input,
in the same order. -/
theorem filter_insertionSort_date (dstr : String) (l : List FileItem) :
    (List.insertionSort dateGe l).filter (fun y => y.date == dstr)
      = l.filter (fun y => y.date == dstr) := by
  induction l with
  | nil => rfl
  | cons x xs ih =>
    rw [List.insertionSort]
    by_cases hx : x.date = dstr
    · rw [filter_orderedInsert_pos dstr x hx, ih, List.filter_cons,
        if_pos (by simp [hx])]
    · rw [filter_orderedInsert_neg dstr x hx, ih, List.filter_cons,
        if_neg (by simp [hx])]

/-! ### Claim C7 -/

/-- C7: the final document sequence is pairwise sorted by the date field
descending (the sort key is the ISO date string, whose order agrees with
calendar order on zero-padded dates); the sort is stable — for every
date value the equal-dated files keep exactly their merge order — and it
is a permutation of the deduplicated merge, so identical inputs yield the
identical ordering. -/
theorem c7_sorted_desc_and_stable (scheme netloc : String)
    (secFiles irFiles : List FileItem) :
    (aggregate scheme netloc secFiles irFiles).Pairwise dateGe
    ∧ (∀ dstr : String,
        (aggregate scheme netloc secFiles irFiles).filter
            (fun y => y.date == dstr)
          = (dedupRelay scheme netloc (secFiles ++ irFiles) []).filter
              (fun y => y.date == dstr))
    ∧ List.Perm (aggregate scheme netloc secFiles irFiles)
        (dedupRelay scheme netloc (secFiles ++ irFiles) []) :=
  ⟨List.sorted_insertionSort dateGe _,
   fun dstr => filter_insertionSort_date dstr _,
   List.perm_insertionSort dateGe _⟩

/-- Witness for `c7_sorted_desc_and_stable` on a concrete merge with a
duplicate name and distinct dates. -/
theorem c7_sorted_desc_and_stable_witness :
    (aggregate "http" "host" [fitA] [fitA2, fitB]).Pairwise dateGe
    ∧ (∀ dstr : String,
        (aggregate "http" "host" [fitA] [fitA2, fitB]).filter
            (fun y => y.date == dstr)
          = (dedupRelay "http" "host" ([fitA] ++ [fitA2, fitB]) []).filter
              (fun y => y.date == dstr))
    ∧ List.Perm (aggregate "http" "host" [fitA] [fitA2, fitB])
        (dedupRelay "http" "host" ([fitA] ++ [fitA2, fitB]) []) :=
  c7_sorted_desc_and_stable "http" "host" [fitA] [fitA2, fitB]
